import Mathlib

/-!
Shallow embedding of the unit-harvesting core of the `lds-datasets` repository
(`src/lds_datasets/units/units.py` and the retry loop of
`src/lds_datasets/temples/scraper.py`), together with theorems settling the
specification claims about it.

Python sets whose elements carry the custom `Unit.__eq__` / `Unit.__hash__`
are modelled as duplicate-free-by-construction lists: `insertUnit` adds an
element only when no element equal under `Unit.pyEq` is already present,
which is exactly the behaviour of `set.add` / `set.update` for a type whose
`__hash__` is derived from the same fields as its `__eq__`.
Python `float` grid arithmetic is modelled over `ℚ`; every concrete value the
claims mention (halves and quarters of small integers) is exact in binary
floating point, so the rational model agrees with the float computation there.
-/

namespace LDS

/-- Data model for an organization type (`OrganizationType` pydantic model). -/
structure OrganizationType where
  id : Int
  code : String
  display : String
deriving DecidableEq, Repr

/-- Data model for an address (`Address` pydantic model). -/
structure Address where
  street1 : Option String := none
  street2 : Option String := none
  city : Option String := none
  county : Option String := none
  state : Option String := none
  stateId : Option Int := none
  stateCode : Option String := none
  postalCode : Option String := none
  country : String
  countryId : Option Int := none
  countryCode2 : Option String := none
  countryCode3 : Option String := none
  formatted : Option String := none
  lines : Option (List String) := none
deriving DecidableEq, Repr

/-- Data model for a language (`Language` pydantic model). -/
structure Language where
  id : Int
  code : Option String := none
  display : Option String := none
deriving DecidableEq, Repr

/-- Data model for an identifier of a ward (`Identifier` pydantic model). -/
structure Identifier where
  facilityId : Option String := none
  structureId : Option String := none
  propertyId : Option Int := none
  unitNumber : Int
  orgId : Option Int := none
deriving DecidableEq, Repr

/-- Data model for a Unit (`Unit` pydantic model).  The `dict[str, Any]`
fields (`contact`, `hours`, `timeZone`) and the phone/email dictionaries are
modelled as association lists of strings; no claim and no operation of the
embedded code reads them, and `Unit.__eq__` ignores them. -/
structure Unit where
  id : String
  type : String
  identifiers : Identifier
  name : Option String := none
  nameDisplay : Option String := none
  typeDisplay : String
  organizationType : Option OrganizationType := none
  address : Option Address := none
  phones : Option (List (List (String × String))) := none
  emails : Option (List (List (String × String))) := none
  contact : Option (List (String × String)) := none
  hours : Option (List (String × String)) := none
  timeZone : Option (List (String × String)) := none
  language : Option Language := none
  provider : String
  specialized : Option Bool := none
  notes : Option String := none
  created : Option String := none
  updated : String
deriving DecidableEq, Repr

/-- Model of `Unit.__eq__`: two wards are equivalent iff `id` and `name` both
match. -/
def Unit.pyEq (a b : Unit) : Bool :=
  a.id == b.id && a.name == b.name

/-- Model of `Unit.__hash__`: `hash((self.id, self.name))`. -/
def Unit.pyHash (a : Unit) : UInt64 :=
  hash (a.id, a.name)

/-- The pair of fields `Unit.__eq__` and `Unit.__hash__` read. -/
def Unit.key (a : Unit) : String × Option String :=
  (a.id, a.name)

/-- Membership in a Python `set[Unit]` (hash bucket lookup followed by
`__eq__`), modelled on the list representation. -/
def memUnit (s : List Unit) (u : Unit) : Bool :=
  s.any fun v => v.pyEq u

/-- Python `set.add`: insert `u` unless an equal (under `Unit.__eq__`)
element is already present; the already-present representative is kept. -/
def insertUnit (s : List Unit) (u : Unit) : List Unit :=
  if memUnit s u then s else s ++ [u]

/-- Python `set.update(batch)`: fold `set.add` over the fetched batch. -/
def updateUnits (s : List Unit) (batch : List Unit) : List Unit :=
  batch.foldl insertUnit s

/-- Data model for a coordinate (`Coordinate` pydantic model); `nearest` is
the optional per-cell result cap. -/
structure Coordinate where
  lat : ℚ
  lon : ℚ
  city : Option String := none
  nearest : Option Int := none
deriving DecidableEq, Repr

/-- One entry of the module-level `regions` configuration list: a named
bounding box, a grid shape, a region-default `nearest` cap, and the manually
pinned `coordinates`. -/
structure Region where
  name : String
  min_lat : ℚ
  max_lat : ℚ
  min_lon : ℚ
  max_lon : ℚ
  nearest : Int
  num_rows : Nat
  num_columns : Nat
  coordinates : List Coordinate
deriving DecidableEq, Repr

/-- Step `lat_step = (region["max_lat"] - region["min_lat"]) / num_rows`. -/
def latStep (r : Region) : ℚ :=
  (r.max_lat - r.min_lat) / r.num_rows

/-- Step `lon_step = (region["max_lon"] - region["min_lon"]) / num_columns`. -/
def lonStep (r : Region) : ℚ :=
  (r.max_lon - r.min_lon) / r.num_columns

/-- The centroid coordinate appended for grid position `(i, j)`:
`Coordinate(lon=min_lon + (j + 0.5) * lon_step, lat=min_lat + (i + 0.5) * lat_step)`,
with no city and no per-cell cap. -/
def centroid (r : Region) (i j : Nat) : Coordinate :=
  { lat := r.min_lat + ((i : ℚ) + 1/2) * latStep r
    lon := r.min_lon + ((j : ℚ) + 1/2) * lonStep r }

/-- The grid cells the planning loop in `get_wards_from_web` appends to
`region["coordinates"]`, in loop order (`i` outer over rows, `j` inner over
columns). -/
def gridCells (r : Region) : List Coordinate :=
  ((List.range r.num_rows).map fun i =>
    (List.range r.num_columns).map fun j => centroid r i j).flatten

/-- The planning step of `get_wards_from_web` for one region: it mutates the
region in place, appending the grid centroids to `region["coordinates"]`.
Python raises `ZeroDivisionError` when computing `lat_step` or `lon_step` for
a region with `num_rows = 0` or `num_columns = 0` (integer and float division
by zero both raise), modelled as `none`. -/
def planRegion (r : Region) : Option Region :=
  if r.num_rows = 0 ∨ r.num_columns = 0 then none
  else some { r with coordinates := r.coordinates ++ gridCells r }

/-- Cap `k = coord.nearest or nearest` in `_get_wards_at_coords`: Python `or`
falls back to the region default when the cell-level cap is `None` (or the
falsy `0`). -/
def effectiveNearest (c : Coordinate) (regionNearest : Int) : Int :=
  match c.nearest with
  | none => regionNearest
  | some k => if k = 0 then regionNearest else k

/-- Outcome of one `requests.get` call as seen by `_get_wards_at_coords`:
either a `ConnectionError` or a response carrying a status code and a JSON
body that validates into a list of `Unit`s. -/
inductive ReqOutcome
  | connError
  | ok (status : Nat) (data : List Unit)
deriving DecidableEq, Repr

/-- The merge section of `_get_wards_at_coords`: under the lock, record the
pre-merge size, `wards.update(ward_models)`, record the post-merge size; the
log line reports `num_wards_added = post - pre` and
`num_duplicates = len(data) - (post - pre)`. -/
def mergeFetched (wards : List Unit) (data : List Unit) :
    List Unit × Int × Int :=
  let pre : Int := wards.length
  let w := updateUnits wards data
  let post : Int := w.length
  (w, post - pre, (data.length : Int) - (post - pre))

/-- Shallow embedding of `_get_wards_at_coords` as a state transformer on the
shared set.  `attempts` is the stream of outcomes the HTTP layer produces for
this cell's (at most two) requests.  A `ConnectionError` is retried exactly
once; a second failure logs and returns with zero contribution (`none`
stats).  A completed response has its status code logged when it is not 200,
and is then parsed, validated and merged regardless of the status. -/
def getWardsAtCoords (wards : List Unit) (attempts : List ReqOutcome) :
    List Unit × Option (Int × Int) :=
  match attempts with
  | [] => (wards, none)
  | ReqOutcome.connError :: rest =>
    match rest with
    | [] => (wards, none)
    | ReqOutcome.connError :: _ => (wards, none)
    | ReqOutcome.ok _ data :: _ =>
      let m := mergeFetched wards data
      (m.1, some m.2)
  | ReqOutcome.ok _ data :: _ =>
    let m := mergeFetched wards data
    (m.1, some m.2)

/-- The `unit_type` argument of `write_daily_files` and `count_unit_types`
(the Python `Literal` of the two collection kinds). -/
inductive UnitKind
  | stakeKind
  | wardKind
deriving DecidableEq, Repr

/-- Display string of the large subtype for a collection kind. -/
def bigDisplay : UnitKind → String
  | UnitKind.stakeKind => "Stake"
  | UnitKind.wardKind => "Ward"

/-- Display string of the small subtype for a collection kind. -/
def smallDisplay : UnitKind → String
  | UnitKind.stakeKind => "District"
  | UnitKind.wardKind => "Branch"

/-- Which branch of the classification chain in `write_daily_files` a unit
falls into. -/
inductive Classified
  | big
  | small
  | unknownType
deriving DecidableEq, Repr

/-- The classification chain applied to one unit in `write_daily_files`:
`if unit.organizationType and unit.organizationType.display == <big>` /
`elif unit.organizationType and unit.organizationType.display == <small>` /
`else: logger.warning(...)`. -/
def classify (k : UnitKind) (u : Unit) : Classified :=
  match u.organizationType with
  | some o =>
    if o.display = bigDisplay k then Classified.big
    else if o.display = smallDisplay k then Classified.small
    else Classified.unknownType
  | none => Classified.unknownType

/-- The units the added-side loop of `write_daily_files` visits:
`for unit in new_units: if unit not in old_units`. -/
def rawAdded (old_units new_units : List Unit) : List Unit :=
  new_units.filter fun u => !memUnit old_units u

/-- The units the removed-side loop of `write_daily_files` visits:
`for unit in old_units: if unit not in new_units`. -/
def rawRemoved (old_units new_units : List Unit) : List Unit :=
  old_units.filter fun u => !memUnit new_units u

/-- The four collections `write_daily_files` accumulates and writes (one JSON
file each), plus the two streams of units its `else` branches hand to
`logger.warning` as unknown organization types. -/
structure DailyFiles where
  units_added : List Unit
  small_units_added : List Unit
  units_removed : List Unit
  small_units_removed : List Unit
  unknown_added : List Unit
  unknown_removed : List Unit
deriving DecidableEq, Repr

/-- Shallow embedding of `write_daily_files`: each visited unit of
`rawAdded` / `rawRemoved` goes to exactly one bucket according to the
classification chain; only the first four buckets are written to files and
counted in the log line, the unknown ones are only warned about. -/
def write_daily_files (old_units new_units : List Unit) (k : UnitKind) :
    DailyFiles :=
  { units_added :=
      (rawAdded old_units new_units).filter fun u => classify k u == Classified.big
    small_units_added :=
      (rawAdded old_units new_units).filter fun u => classify k u == Classified.small
    units_removed :=
      (rawRemoved old_units new_units).filter fun u => classify k u == Classified.big
    small_units_removed :=
      (rawRemoved old_units new_units).filter fun u => classify k u == Classified.small
    unknown_added :=
      (rawAdded old_units new_units).filter fun u => classify k u == Classified.unknownType
    unknown_removed :=
      (rawRemoved old_units new_units).filter fun u => classify k u == Classified.unknownType }

/-- Outcome of one `session.request` call inside `send_request_with_retry`:
either a `ConnectionError`, or a response with a status code, a flag telling
whether `response.json()` parses, and a flag telling whether the unparseable
body looks like the login page redirect. -/
inductive HttpAttempt
  | connError
  | response (status : Nat) (parseable : Bool) (loginRedirect : Bool)
deriving DecidableEq, Repr

/-- The `while retries < max_retries` loop of `send_request_with_retry`,
consuming one scripted outcome per request issued.  Returns the response
returned to the caller (`none` models the `return None` after the loop and
the out-of-script case, which no modelled run reaches) paired with the total
number of requests issued.  A `ConnectionError` and a 429 sleep, double the
delay and increment `retries`; a parseable 200 is returned; an unparseable
200 (login redirect or not) loops again without touching `retries`; any
other status is returned to the caller immediately. -/
def sendRequestWithRetryAux :
    List HttpAttempt → Nat → Nat → Nat → Option HttpAttempt × Nat
  | attempts, retries, maxRetries, count =>
    if retries < maxRetries then
      match attempts with
      | [] => (none, count)
      | a :: rest =>
        match a with
        | HttpAttempt.connError =>
          sendRequestWithRetryAux rest (retries + 1) maxRetries (count + 1)
        | HttpAttempt.response status parseable _ =>
          if status = 429 then
            sendRequestWithRetryAux rest (retries + 1) maxRetries (count + 1)
          else if status = 200 then
            if parseable then (some a, count + 1)
            else sendRequestWithRetryAux rest retries maxRetries (count + 1)
          else (some a, count + 1)
    else (none, count)

/-- Entry point `send_request_with_retry` with its scripted outcomes;
`max_retries` defaults to 3 and every call site uses the default. -/
def send_request_with_retry (attempts : List HttpAttempt)
    (maxRetries : Nat := 3) : Option HttpAttempt × Nat :=
  sendRequestWithRetryAux attempts 0 maxRetries 0

/-- Filesystem actions the tail of a web harvest performs, in program
order: `write_daily_files` writes the four delta files, then
`write_units_json` unlinks the snapshot from two days prior and writes
today's snapshot. -/
inductive FsEvent
  | writeDailyFile (name : String)
  | deleteSnapshot (day : String)
  | writeSnapshot (day : String)
deriving DecidableEq, Repr

/-- The four file writes `write_daily_files` performs for the ward
collection. -/
def writeDailyFilesTrace : List FsEvent :=
  [FsEvent.writeDailyFile "wards_added", FsEvent.writeDailyFile "wards_removed",
   FsEvent.writeDailyFile "branches_added", FsEvent.writeDailyFile "branches_removed"]

/-- The filesystem actions of `write_units_json`: `ereyesterday_path.unlink()`
first (when the file exists), `open(file_path, "w")` and the dump second. -/
def writeUnitsJsonTrace (ereExists : Bool) (ereyesterday today : String) :
    List FsEvent :=
  (if ereExists then [FsEvent.deleteSnapshot ereyesterday] else []) ++
    [FsEvent.writeSnapshot today]

/-- The persistence tail of `get_wards_from_web`: the diff files, then
`write_units_json`. -/
def harvestPersistTrace (ereExists : Bool) (ereyesterday today : String) :
    List FsEvent :=
  writeDailyFilesTrace ++ writeUnitsJsonTrace ereExists ereyesterday today

/-- Effect of one filesystem action on the list of snapshot days on disk
(delta files live elsewhere and do not affect it). -/
def applyFsEvent (disk : List String) : FsEvent → List String
  | FsEvent.writeDailyFile _ => disk
  | FsEvent.deleteSnapshot d => disk.erase d
  | FsEvent.writeSnapshot d => if d ∈ disk then disk else disk ++ [d]

/-- Snapshot days on disk after running a trace. -/
def runFsTrace (disk : List String) (t : List FsEvent) : List String :=
  t.foldl applyFsEvent disk

/-- Ward-typed scenario unit with the given id and name. -/
def mkWard (i n : String) : Unit :=
  { id := i
    type := "WARD"
    identifiers := { unitNumber := 1 }
    name := some n
    typeDisplay := "Ward"
    organizationType := some { id := 1, code := "WARD", display := "Ward" }
    provider := "p"
    updated := "2023-01-01" }

/-- Scenario 3 entity with id "1" and name "A". -/
def wardA : Unit := mkWard "1" "A"

/-- Scenario 3 entity with id "2" and name "B". -/
def wardB : Unit := mkWard "2" "B"

/-- Scenario 3 entity with id "3" and name "C". -/
def wardC : Unit := mkWard "3" "C"

/-- Extra fresh entity for the batch-of-three counterexample. -/
def wardD : Unit := mkWard "4" "D"

/-- Extra fresh entity for the batch-of-three counterexample. -/
def wardE : Unit := mkWard "5" "E"

/-- A fully populated unit; shares id and name with `uBare` and differs in
every other field. -/
def uFull : Unit :=
  { id := "500"
    type := "WARD"
    identifiers := { unitNumber := 77, orgId := some 5 }
    name := some "Liberty"
    nameDisplay := some "Liberty Ward"
    typeDisplay := "Ward"
    organizationType := some { id := 7, code := "WARD", display := "Ward" }
    address := some { country := "United States", state := some "Utah" }
    provider := "ChurchOfJesusChrist"
    specialized := some false
    notes := some "x"
    created := some "1999-01-01"
    updated := "2024-05-05" }

/-- A minimally populated unit agreeing with `uFull` only on id and name. -/
def uBare : Unit :=
  { id := "500"
    type := "BRANCH"
    identifiers := { unitNumber := 1 }
    name := some "Liberty"
    typeDisplay := "Branch"
    provider := "other"
    updated := "2020-01-01" }

/-- A unit with no `organizationType`, hitting the warning branch of
`write_daily_files`. -/
def uUnknown : Unit :=
  { id := "9"
    type := "WARD"
    identifiers := { unitNumber := 9 }
    name := some "Mystery"
    typeDisplay := "Ward"
    provider := "p"
    updated := "2023-01-01" }

/-- Region "X" of Scenario 1: rows=2, columns=2, lat range `[0,10]`,
lon range `[0,10]`, no pinned coordinates. -/
def regionX : Region :=
  { name := "X", min_lat := 0, max_lat := 10, min_lon := 0, max_lon := 10,
    nearest := 1000, num_rows := 2, num_columns := 2, coordinates := [] }

/-- Region "X" after one planning pass. -/
def plannedX : Region :=
  { regionX with coordinates := regionX.coordinates ++ gridCells regionX }

/-- Region with zero rows (and a pinned coordinate), exercising the
`ZeroDivisionError` edge case of the planning loop. -/
def regionZeroRows : Region :=
  { name := "Z", min_lat := 0, max_lat := 10, min_lon := 0, max_lon := 10,
    nearest := 50, num_rows := 0, num_columns := 2,
    coordinates := [{ lat := 1, lon := 2, city := some "Pin", nearest := some 100 }] }

/-- Europe region of the `regions` configuration literal: bounds
lat `[36,71]`, lon `[-35,59]`, cap 2000, 3 rows, 5 columns, no pinned
coordinates. -/
def regionEurope : Region :=
  { name := "Europe", min_lat := 36, max_lat := 71, min_lon := -35, max_lon := 59,
    nearest := 2000, num_rows := 3, num_columns := 5, coordinates := [] }

/-- Europe region after one planning pass. -/
def plannedEurope : Region :=
  { regionEurope with coordinates := regionEurope.coordinates ++ gridCells regionEurope }

/-- Europe region after a second planning pass over the mutated record. -/
def plannedEuropeTwice : Region :=
  { plannedEurope with coordinates := plannedEurope.coordinates ++ gridCells plannedEurope }

/-- Australia region of the `regions` configuration literal (decimal float
bounds written as exact rationals), 2 rows, 2 columns, no pinned
coordinates. -/
def regionAustralia : Region :=
  { name := "Australia",
    min_lat := -43634597/1000000, max_lat := -10059229/1000000,
    min_lon := 113338953/1000000, max_lon := 153569469/1000000,
    nearest := 500, num_rows := 2, num_columns := 2, coordinates := [] }

/-- Australia region after one planning pass. -/
def plannedAustralia : Region :=
  { regionAustralia with
    coordinates := regionAustralia.coordinates ++ gridCells regionAustralia }

/-- Scripted responses of Scenario 2: three consecutive 429s, then a 200
with a parseable JSON body. -/
def c4Script : List HttpAttempt :=
  [HttpAttempt.response 429 true false, HttpAttempt.response 429 true false,
   HttpAttempt.response 429 true false, HttpAttempt.response 200 true false]

theorem Unit.pyEq_iff_key (a b : Unit) : a.pyEq b = true ↔ a.key = b.key := by
  simp [Unit.pyEq, Unit.key, Prod.ext_iff]

theorem memUnit_iff (s : List Unit) (u : Unit) :
    memUnit s u = true ↔ ∃ v ∈ s, v.key = u.key := by
  simp [memUnit, List.any_eq_true, Unit.pyEq_iff_key]

theorem memUnit_congr (s : List Unit) {u w : Unit} (h : u.key = w.key) :
    memUnit s u = memUnit s w := by
  cases hm : memUnit s w with
  | true =>
    rw [memUnit_iff] at hm ⊢
    obtain ⟨v, hv, hk⟩ := hm
    exact ⟨v, hv, by rw [hk, h]⟩
  | false =>
    cases hm' : memUnit s u with
    | false => rfl
    | true =>
      rw [memUnit_iff] at hm'
      obtain ⟨v, hv, hk⟩ := hm'
      have : memUnit s w = true := (memUnit_iff s w).mpr ⟨v, hv, by rw [hk, h]⟩
      rw [this] at hm
      exact hm

theorem memUnit_append (a b : List Unit) (u : Unit) :
    memUnit (a ++ b) u = (memUnit a u || memUnit b u) := by
  simp [memUnit, List.any_append]

theorem memUnit_insertUnit (s : List Unit) (x u : Unit) :
    memUnit (insertUnit s x) u = (memUnit s u || x.pyEq u) := by
  unfold insertUnit
  cases hx : memUnit s x with
  | true =>
    simp only [if_pos rfl, hx]
    cases he : x.pyEq u with
    | false => simp
    | true =>
      have hk : x.key = u.key := (Unit.pyEq_iff_key x u).mp he
      have : memUnit s u = true := by
        rw [← memUnit_congr s hk]
        exact hx
      simp [this]
  | false =>
    rw [if_neg (by simp [hx]), memUnit_append]
    simp [memUnit]

theorem memUnit_updateUnits (s batch : List Unit) (u : Unit) :
    memUnit (updateUnits s batch) u = (memUnit s u || memUnit batch u) := by
  induction batch generalizing s with
  | nil => simp [updateUnits, memUnit]
  | cons x rest ih =>
    show memUnit (updateUnits (insertUnit s x) rest) u = _
    rw [ih, memUnit_insertUnit]
    simp [memUnit, Bool.or_assoc, Bool.or_comm, Bool.or_left_comm]

theorem length_insertUnit (s : List Unit) (u : Unit) :
    (insertUnit s u).length = if memUnit s u then s.length else s.length + 1 := by
  unfold insertUnit
  split <;> simp

theorem length_gridCells (r : Region) :
    (gridCells r).length = r.num_rows * r.num_columns := by
  simp [gridCells, List.length_flatten, List.map_map, Function.comp_def]

theorem mem_gridCells (r : Region) (c : Coordinate) :
    c ∈ gridCells r ↔
      ∃ i < r.num_rows, ∃ j < r.num_columns, c = centroid r i j := by
  simp only [gridCells, List.mem_flatten, List.mem_map, List.mem_range]
  constructor
  · rintro ⟨l, ⟨i, hi, rfl⟩, hc⟩
    obtain ⟨j, hj, rfl⟩ := List.mem_map.mp hc
    exact ⟨i, hi, j, List.mem_range.mp hj, rfl⟩
  · rintro ⟨i, hi, j, hj, rfl⟩
    exact ⟨_, ⟨i, hi, rfl⟩, List.mem_map.mpr ⟨j, List.mem_range.mpr hj, rfl⟩⟩

theorem centroid_mem_gridCells (r : Region) {i j : Nat}
    (hi : i < r.num_rows) (hj : j < r.num_columns) :
    centroid r i j ∈ gridCells r :=
  (mem_gridCells r _).mpr ⟨i, hi, j, hj, rfl⟩

theorem bool_eq_of_iff {a b : Bool} (h : a = true ↔ b = true) : a = b := by
  cases a <;> cases b <;> simp_all

theorem memUnit_filter (l : List Unit) (p : Unit → Bool) (u : Unit) :
    memUnit (l.filter p) u = true ↔ ∃ v ∈ l, p v = true ∧ v.key = u.key := by
  rw [memUnit_iff]
  constructor
  · rintro ⟨v, hv, hk⟩
    have := List.mem_filter.mp hv
    exact ⟨v, this.1, this.2, hk⟩
  · rintro ⟨v, hv, hp, hk⟩
    exact ⟨v, List.mem_filter.mpr ⟨hv, hp⟩, hk⟩

theorem mem_rawAdded (old_units new_units : List Unit) (u : Unit) :
    memUnit (rawAdded old_units new_units) u = true ↔
      memUnit new_units u = true ∧ memUnit old_units u = false := by
  rw [rawAdded, memUnit_filter]
  constructor
  · rintro ⟨v, hv, hp, hk⟩
    refine ⟨(memUnit_iff _ _).mpr ⟨v, hv, hk⟩, ?_⟩
    rw [memUnit_congr old_units hk.symm]
    simpa using hp
  · rintro ⟨hnew, hold⟩
    obtain ⟨v, hv, hk⟩ := (memUnit_iff _ _).mp hnew
    refine ⟨v, hv, ?_, hk⟩
    rw [show memUnit old_units v = false from by
      rw [memUnit_congr old_units hk]; exact hold]
    rfl

theorem mem_rawRemoved (old_units new_units : List Unit) (u : Unit) :
    memUnit (rawRemoved old_units new_units) u = true ↔
      memUnit old_units u = true ∧ memUnit new_units u = false := by
  rw [rawRemoved, memUnit_filter]
  constructor
  · rintro ⟨v, hv, hp, hk⟩
    refine ⟨(memUnit_iff _ _).mpr ⟨v, hv, hk⟩, ?_⟩
    rw [memUnit_congr new_units hk.symm]
    simpa using hp
  · rintro ⟨hold, hnew⟩
    obtain ⟨v, hv, hk⟩ := (memUnit_iff _ _).mp hold
    refine ⟨v, hv, ?_, hk⟩
    rw [show memUnit new_units v = false from by
      rw [memUnit_congr new_units hk]; exact hnew]
    rfl

theorem memUnit_rawAdded_eq (old_units new_units : List Unit) (u : Unit) :
    memUnit (rawAdded old_units new_units) u =
      (memUnit new_units u && !memUnit old_units u) :=
  bool_eq_of_iff (by rw [mem_rawAdded]; cases h : memUnit old_units u <;>
    cases h' : memUnit new_units u <;> simp)

theorem memUnit_rawRemoved_eq (old_units new_units : List Unit) (u : Unit) :
    memUnit (rawRemoved old_units new_units) u =
      (memUnit old_units u && !memUnit new_units u) :=
  bool_eq_of_iff (by rw [mem_rawRemoved]; cases h : memUnit old_units u <;>
    cases h' : memUnit new_units u <;> simp)

theorem classify_cases (k : UnitKind) (u : Unit) :
    classify k u = Classified.big ∨ classify k u = Classified.small ∨
      classify k u = Classified.unknownType := by
  cases h : classify k u <;> simp
/-- C1: for any previous snapshot A (`old_units`) and current snapshot B
(`new_units`), the diff visits exactly `added = B - A` and
`removed = A - B` as set differences under the `id`+`name` identity; added
and removed are disjoint, each is disjoint from `A ∩ B`, and added, removed
and `A ∩ B` together cover exactly `A ∪ B`; moreover the added-side buckets
`write_daily_files` produces are, membership-wise, exactly the raw added
set. -/
theorem C1_diff_partition (old_units new_units : List Unit) (k : UnitKind) (u : Unit) :
    memUnit (rawAdded old_units new_units) u =
      (memUnit new_units u && !memUnit old_units u) ∧
    memUnit (rawRemoved old_units new_units) u =
      (memUnit old_units u && !memUnit new_units u) ∧
    (memUnit (rawAdded old_units new_units) u &&
      memUnit (rawRemoved old_units new_units) u) = false ∧
    (memUnit (rawAdded old_units new_units) u &&
      (memUnit old_units u && memUnit new_units u)) = false ∧
    (memUnit (rawRemoved old_units new_units) u &&
      (memUnit old_units u && memUnit new_units u)) = false ∧
    (memUnit (rawAdded old_units new_units) u ||
      memUnit (rawRemoved old_units new_units) u ||
      (memUnit old_units u && memUnit new_units u)) =
      (memUnit old_units u || memUnit new_units u) ∧
    memUnit ((write_daily_files old_units new_units k).units_added ++
        (write_daily_files old_units new_units k).small_units_added ++
        (write_daily_files old_units new_units k).unknown_added) u =
      memUnit (rawAdded old_units new_units) u := by
  refine ⟨memUnit_rawAdded_eq _ _ _, memUnit_rawRemoved_eq _ _ _, ?_, ?_, ?_, ?_, ?_⟩
  · rw [memUnit_rawAdded_eq, memUnit_rawRemoved_eq]
    cases memUnit old_units u <;> cases memUnit new_units u <;> simp
  · rw [memUnit_rawAdded_eq]
    cases memUnit old_units u <;> cases memUnit new_units u <;> simp
  · rw [memUnit_rawRemoved_eq]
    cases memUnit old_units u <;> cases memUnit new_units u <;> simp
  · rw [memUnit_rawAdded_eq, memUnit_rawRemoved_eq]
    cases memUnit old_units u <;> cases memUnit new_units u <;> simp
  · apply bool_eq_of_iff
    rw [memUnit_append, memUnit_append]
    simp only [Bool.or_eq_true]
    constructor
    · rintro ((h | h) | h) <;>
      · rw [write_daily_files] at h
        simp only at h
        obtain ⟨v, hv, _, hk⟩ := (memUnit_filter _ _ _).mp h
        exact (memUnit_iff _ _).mpr ⟨v, hv, hk⟩
    · intro h
      obtain ⟨v, hv, hk⟩ := (memUnit_iff _ _).mp h
      rcases classify_cases k v with hc | hc | hc
      · exact Or.inl (Or.inl ((memUnit_filter _ _ _).mpr ⟨v, hv, by simp [hc], hk⟩))
      · exact Or.inl (Or.inr ((memUnit_filter _ _ _).mpr ⟨v, hv, by simp [hc], hk⟩))
      · exact Or.inr ((memUnit_filter _ _ _).mpr ⟨v, hv, by simp [hc], hk⟩)

/-- C2 (amended): merging a fetched batch `[a, b]` whose entity `a` is
already in the shared set (the entity shared with the first fetch result)
and whose entity `b` is new increases the set size by exactly 1, and the
reported duplicate count `len(fetched) - (post - pre)` equals the size of
the batch minus 1; harvesting the two Scenario 3 cells yields a final set
of size 3 with per-merge duplicate counts 0 and 1 (total 1). -/
theorem C2_dedup_merge (s : List Unit) (a b : Unit)
    (ha : memUnit s a = true) (hb : memUnit s b = false) :
    getWardsAtCoords s [ReqOutcome.ok 200 [a, b]] =
      (s ++ [b], some (1, (([a, b] : List Unit).length : Int) - 1)) ∧
    getWardsAtCoords [] [ReqOutcome.ok 200 [wardA, wardB]] =
      ([wardA, wardB], some (2, 0)) ∧
    getWardsAtCoords [wardA, wardB] [ReqOutcome.ok 200 [wardA, wardC]] =
      ([wardA, wardB, wardC], some (1, 1)) := by
  have h2 : updateUnits s [a, b] = s ++ [b] := by
    simp [updateUnits, insertUnit, ha, hb]
  refine ⟨?_, by decide, by decide⟩
  show (updateUnits s [a, b],
    some (((updateUnits s [a, b]).length : Int) - s.length,
      (([a, b] : List Unit).length : Int) -
        (((updateUnits s [a, b]).length : Int) - s.length))) = _
  rw [h2]
  simp only [List.length_append, List.length_cons, List.length_nil]
  norm_num

/-- C2 counterexample: with the shared set holding the first fetch result
`[wardA, wardB]` and a second fetch result `[wardA, wardD, wardE]` that
contains the shared entity `wardA` exactly once, the merge increases the set
size by 2 (not exactly 1 as claimed) and reports 1 duplicate (not
`len(batch) - 1 = 2` as claimed). -/
theorem C2_counterexample :
    (getWardsAtCoords (updateUnits [] [wardA, wardB])
      [ReqOutcome.ok 200 [wardA, wardD, wardE]]).2 = some (2, 1) ∧
    (getWardsAtCoords (updateUnits [] [wardA, wardB])
      [ReqOutcome.ok 200 [wardA, wardD, wardE]]).1.length = 4 ∧
    ¬((2 : Int) = 1) ∧
    ¬((1 : Int) = (([wardA, wardD, wardE] : List Unit).length : Int) - 1) := by
  decide

/-- Witness for C2 at the Scenario 3 instance. -/
theorem C2_witness :
    memUnit [wardA, wardB] wardA = true ∧ memUnit [wardA, wardB] wardC = false ∧
    getWardsAtCoords [wardA, wardB] [ReqOutcome.ok 200 [wardA, wardC]] =
      ([wardA, wardB] ++ [wardC],
        some (1, (([wardA, wardC] : List Unit).length : Int) - 1)) :=
  ⟨by decide, by decide,
    (C2_dedup_merge [wardA, wardB] wardA wardC (by decide) (by decide)).1⟩

/-- C3: two `Unit` values compare equal under `Unit.__eq__` iff both their
`id` and `name` fields match — no other field matters; equal key fields give
equal hashes, and an equal unit is absorbed (deduplicated) by the set
insert. -/
theorem C3_identity_equality (a b : Unit) :
    (a.pyEq b = true ↔ a.id = b.id ∧ a.name = b.name) ∧
    (a.id = b.id ∧ a.name = b.name → a.pyHash = b.pyHash) ∧
    (a.pyEq b = true → insertUnit [a] b = [a]) := by
  refine ⟨by simp [Unit.pyEq], ?_, ?_⟩
  · rintro ⟨h1, h2⟩
    simp [Unit.pyHash, h1, h2]
  · intro h
    simp [insertUnit, memUnit, h]

/-- Witness for C3: `uFull` and `uBare` agree only on id and name and differ
in type, organization type, address, timestamps and provider, yet compare
equal, hash equal, and deduplicate. -/
theorem C3_witness :
    uFull.pyEq uBare = true ∧ uFull.pyHash = uBare.pyHash ∧
    insertUnit [uFull] uBare = [uFull] :=
  ⟨(C3_identity_equality uFull uBare).1.mpr ⟨rfl, rfl⟩,
    (C3_identity_equality uFull uBare).2.1 ⟨rfl, rfl⟩,
    (C3_identity_equality uFull uBare).2.2
      ((C3_identity_equality uFull uBare).1.mpr ⟨rfl, rfl⟩)⟩

/-- C4 (amended): with the retry ceiling `max_retries = 3` counting the
initial request, two consecutive 429s followed by a parseable 200 make
exactly 3 requests and return the 3rd response, while three consecutive 429s
exhaust the ceiling after exactly 3 requests and return `None` — the 4th
scripted response is never requested. -/
theorem C4_retry_ceiling (p₁ l₁ p₂ l₂ p₃ l₃ : Bool) (rest : List HttpAttempt) :
    send_request_with_retry
      (HttpAttempt.response 429 p₁ l₁ :: HttpAttempt.response 429 p₂ l₂ ::
        HttpAttempt.response 200 true false :: rest) =
      (some (HttpAttempt.response 200 true false), 3) ∧
    send_request_with_retry
      (HttpAttempt.response 429 p₁ l₁ :: HttpAttempt.response 429 p₂ l₂ ::
        HttpAttempt.response 429 p₃ l₃ :: rest) = (none, 3) :=
  ⟨rfl, by cases rest <;> rfl⟩

/-- C4 counterexample: on the Scenario 2 script (three 429s then a parseable
200) the fetch makes 3 requests, not 4, and returns `None` instead of the
4th response. -/
theorem C4_counterexample :
    send_request_with_retry c4Script = (none, 3) ∧
    ¬((send_request_with_retry c4Script).2 = 4) ∧
    ¬((send_request_with_retry c4Script).1 =
        some (HttpAttempt.response 200 true false)) := by
  decide

/-- C5 (amended): for a region with `R > 0` rows and `C > 0` columns the
planner appends exactly `R*C` grid cells after the pinned coordinates, each
at the centroid `lat = min_lat + (i+0.5)*(max_lat-min_lat)/R`,
`lon = min_lon + (j+0.5)*(max_lon-min_lon)/C`, with no per-cell cap so the
effective cap is the region default; a region with `R = 0` or `C = 0` raises
`ZeroDivisionError` (modelled as `none`) instead of emitting just its pinned
coordinates. -/
theorem C5_planner (r : Region) :
    ((r.num_rows = 0 ∨ r.num_columns = 0) → planRegion r = none) ∧
    (∀ r', planRegion r = some r' →
      r'.coordinates = r.coordinates ++ gridCells r ∧
      (gridCells r).length = r.num_rows * r.num_columns ∧
      (∀ c ∈ gridCells r,
        c.nearest = none ∧ c.city = none ∧
        effectiveNearest c r.nearest = r.nearest ∧
        ∃ i < r.num_rows, ∃ j < r.num_columns,
          c.lat = r.min_lat + ((i : ℚ) + 1/2) * ((r.max_lat - r.min_lat) / r.num_rows) ∧
          c.lon = r.min_lon + ((j : ℚ) + 1/2) * ((r.max_lon - r.min_lon) / r.num_columns)) ∧
      (∀ i < r.num_rows, ∀ j < r.num_columns, centroid r i j ∈ gridCells r)) := by
  constructor
  · intro h
    rw [planRegion, if_pos h]
  · intro r' h
    rw [planRegion] at h
    split at h
    · exact absurd h (by simp)
    · injection h with h
      subst h
      refine ⟨rfl, length_gridCells r, ?_, ?_⟩
      · intro c hc
        obtain ⟨i, hi, j, hj, rfl⟩ := (mem_gridCells r c).mp hc
        exact ⟨rfl, rfl, rfl, i, hi, j, hj, rfl, rfl⟩
      · intro i hi j hj
        exact centroid_mem_gridCells r hi hj

/-- Witness for C5 at the Scenario 1 region: 2x2 grid over lat `[0,10]`,
lon `[0,10]` yields exactly the four centroids (2.5,2.5), (2.5,7.5),
(7.5,2.5), (7.5,7.5). -/
theorem C5_witness :
    plannedX.coordinates = regionX.coordinates ++ gridCells regionX ∧
    (gridCells regionX).length = regionX.num_rows * regionX.num_columns ∧
    centroid regionX 0 0 ∈ gridCells regionX ∧
    plannedX.coordinates =
      [⟨5/2, 5/2, none, none⟩, ⟨5/2, 15/2, none, none⟩,
       ⟨15/2, 5/2, none, none⟩, ⟨15/2, 15/2, none, none⟩] :=
  ⟨((C5_planner regionX).2 plannedX rfl).1,
   ((C5_planner regionX).2 plannedX rfl).2.1,
   ((C5_planner regionX).2 plannedX rfl).2.2.2 0 (by decide) 0 (by decide),
   by norm_num [plannedX, regionX, gridCells, centroid, latStep, lonStep,
        List.range_succ, Coordinate.mk.injEq]⟩

/-- C5 counterexample: a region with zero rows and one pinned coordinate
makes the planner divide by zero (`none`) rather than emit exactly its
pinned coordinates. -/
theorem C5_counterexample :
    planRegion regionZeroRows = none ∧
    ¬((planRegion regionZeroRows).map Region.coordinates =
        some regionZeroRows.coordinates) :=
  ⟨rfl, by rw [show planRegion regionZeroRows = none from rfl]; simp⟩

/-- C6 (amended): the planning step appends the grid cells to the region's
coordinate list in place, so planning the same region object twice appends
the grid twice; the second cell list extends the first and differs from it
whenever the grid is non-empty — planning is not a pure function of the
region configuration. -/
theorem C6_plan_mutates (r r₁ r₂ : Region)
    (h1 : planRegion r = some r₁) (h2 : planRegion r₁ = some r₂) :
    r₁.coordinates = r.coordinates ++ gridCells r ∧
    r₂.coordinates = (r.coordinates ++ gridCells r) ++ gridCells r ∧
    (r.num_rows * r.num_columns ≠ 0 → r₂.coordinates ≠ r₁.coordinates) := by
  rw [planRegion] at h1
  split at h1
  · exact absurd h1 (by simp)
  · injection h1 with h1
    subst h1
    rw [planRegion] at h2
    split at h2
    · exact absurd h2 (by simp)
    · injection h2 with h2
      subst h2
      refine ⟨rfl, rfl, ?_⟩
      intro hpos heq
      have hl := congrArg List.length heq
      simp only [List.length_append, length_gridCells] at hl
      omega

/-- Witness for C6 at the Europe region of the configuration literal. -/
theorem C6_witness :
    plannedEuropeTwice.coordinates =
      (regionEurope.coordinates ++ gridCells regionEurope) ++ gridCells regionEurope ∧
    plannedEuropeTwice.coordinates ≠ plannedEurope.coordinates :=
  ⟨(C6_plan_mutates regionEurope plannedEurope plannedEuropeTwice rfl rfl).2.1,
   (C6_plan_mutates regionEurope plannedEurope plannedEuropeTwice rfl rfl).2.2
     (by decide)⟩

/-- C6 counterexample: planning the Europe region twice yields a second cell
list (30 cells) different from the first (15 cells). -/
theorem C6_counterexample :
    planRegion regionEurope = some plannedEurope ∧
    planRegion plannedEurope = some plannedEuropeTwice ∧
    plannedEuropeTwice.coordinates ≠ plannedEurope.coordinates := by
  refine ⟨rfl, rfl, ?_⟩
  intro heq
  have hl := congrArg List.length heq
  rw [show plannedEuropeTwice.coordinates =
      plannedEurope.coordinates ++ gridCells plannedEurope from rfl,
    show plannedEurope.coordinates =
      regionEurope.coordinates ++ gridCells regionEurope from rfl] at hl
  simp only [List.length_append, length_gridCells] at hl
  simp [regionEurope, plannedEurope] at hl

/-- C7 (amended): a harvest's planning step leaves every scalar field of the
region (name, bounds, cap, grid shape) unchanged but mutates the pinned
coordinate list, appending the grid cells to it — so after the run the
coordinate list differs from its value before the run whenever the grid is
non-empty. -/
theorem C7_region_mutation (r r' : Region) (h : planRegion r = some r') :
    r'.name = r.name ∧ r'.min_lat = r.min_lat ∧ r'.max_lat = r.max_lat ∧
    r'.min_lon = r.min_lon ∧ r'.max_lon = r.max_lon ∧ r'.nearest = r.nearest ∧
    r'.num_rows = r.num_rows ∧ r'.num_columns = r.num_columns ∧
    r'.coordinates = r.coordinates ++ gridCells r ∧
    (r.num_rows * r.num_columns ≠ 0 → r'.coordinates ≠ r.coordinates) := by
  rw [planRegion] at h
  split at h
  · exact absurd h (by simp)
  · injection h with h
    subst h
    refine ⟨rfl, rfl, rfl, rfl, rfl, rfl, rfl, rfl, rfl, ?_⟩
    intro hpos heq
    have hl := congrArg List.length heq
    simp only [List.length_append, length_gridCells] at hl
    omega

/-- Witness for C7 at the Australia region of the configuration literal. -/
theorem C7_witness :
    plannedAustralia.name = regionAustralia.name ∧
    plannedAustralia.nearest = regionAustralia.nearest ∧
    plannedAustralia.num_rows = regionAustralia.num_rows ∧
    plannedAustralia.coordinates = regionAustralia.coordinates ++ gridCells regionAustralia ∧
    plannedAustralia.coordinates ≠ regionAustralia.coordinates :=
  ⟨(C7_region_mutation regionAustralia plannedAustralia rfl).1,
   (C7_region_mutation regionAustralia plannedAustralia rfl).2.2.2.2.2.1,
   (C7_region_mutation regionAustralia plannedAustralia rfl).2.2.2.2.2.2.1,
   (C7_region_mutation regionAustralia plannedAustralia rfl).2.2.2.2.2.2.2.2.1,
   (C7_region_mutation regionAustralia plannedAustralia rfl).2.2.2.2.2.2.2.2.2
     (by decide)⟩

/-- C7 counterexample: harvest planning mutates the Australia region's
pinned coordinate list (empty before the run, four grid cells after). -/
theorem C7_counterexample :
    planRegion regionAustralia = some plannedAustralia ∧
    plannedAustralia.coordinates ≠ regionAustralia.coordinates := by
  refine ⟨rfl, ?_⟩
  intro heq
  have hl := congrArg List.length heq
  rw [show plannedAustralia.coordinates =
      regionAustralia.coordinates ++ gridCells regionAustralia from rfl] at hl
  simp only [List.length_append, length_gridCells] at hl
  simp [regionAustralia] at hl

/-- C8 (amended): an entity on the added or removed side of the diff with no
recognizable organization subtype is handed to the warning log (the unknown
stream) and excluded from the categorized buckets — and since
`write_daily_files` reports and writes only those categorized buckets, the
entity is absent from every written file and reported count; no raw
added/removed set retaining it is written. -/
theorem C8_unknown_excluded (old_units new_units : List Unit) (k : UnitKind) (u : Unit) :
    (u ∈ rawAdded old_units new_units → classify k u = Classified.unknownType →
      u ∈ (write_daily_files old_units new_units k).unknown_added ∧
      u ∉ (write_daily_files old_units new_units k).units_added ∧
      u ∉ (write_daily_files old_units new_units k).small_units_added) ∧
    (u ∈ rawRemoved old_units new_units → classify k u = Classified.unknownType →
      u ∈ (write_daily_files old_units new_units k).unknown_removed ∧
      u ∉ (write_daily_files old_units new_units k).units_removed ∧
      u ∉ (write_daily_files old_units new_units k).small_units_removed) := by
  constructor <;>
  · intro hm hc
    refine ⟨List.mem_filter.mpr ⟨hm, by simp [hc]⟩, fun h => ?_, fun h => ?_⟩ <;>
    · have hf := (List.mem_filter.mp h).2
      simp [hc] at hf

/-- Witness for C8: a category-less unit added between an empty old snapshot
and a singleton new snapshot lands in the warning stream and in no written
bucket. -/
theorem C8_witness :
    uUnknown ∈ (write_daily_files [] [uUnknown] UnitKind.wardKind).unknown_added ∧
    uUnknown ∉ (write_daily_files [] [uUnknown] UnitKind.wardKind).units_added ∧
    uUnknown ∉ (write_daily_files [] [uUnknown] UnitKind.wardKind).small_units_added :=
  (C8_unknown_excluded [] [uUnknown] UnitKind.wardKind uUnknown).1 (by decide) rfl

/-- C8 counterexample: the category-less unit `uUnknown` is in the raw added
set but in none of the four collections the diff writes, and the reported
added totals count zero units — it is not retained in any raw set the diff
reports or writes. -/
theorem C8_counterexample :
    memUnit (rawAdded [] [uUnknown]) uUnknown = true ∧
    memUnit ((write_daily_files [] [uUnknown] UnitKind.wardKind).units_added ++
      (write_daily_files [] [uUnknown] UnitKind.wardKind).small_units_added ++
      (write_daily_files [] [uUnknown] UnitKind.wardKind).units_removed ++
      (write_daily_files [] [uUnknown] UnitKind.wardKind).small_units_removed)
      uUnknown = false ∧
    (write_daily_files [] [uUnknown] UnitKind.wardKind).units_added.length +
      (write_daily_files [] [uUnknown] UnitKind.wardKind).small_units_added.length = 0 ∧
    (rawAdded [] [uUnknown]).length = 1 := by
  decide

/-- C9 (amended): in the persistence tail of a harvest the four diff files
are written first, then `write_units_json` deletes the snapshot from two
days prior and only afterwards writes today's snapshot — the deletion
happens after the diff but before today's snapshot is persisted; at steady
state exactly yesterday's and today's snapshots remain on disk. -/
theorem C9_prune_before_persist (ere yest today : String)
    (h2 : today ≠ yest) :
    (harvestPersistTrace true ere today)[4]? = some (FsEvent.deleteSnapshot ere) ∧
    (harvestPersistTrace true ere today)[5]? = some (FsEvent.writeSnapshot today) ∧
    (∀ e ∈ (harvestPersistTrace true ere today).take 4, ∃ f, e = FsEvent.writeDailyFile f) ∧
    runFsTrace [ere, yest] (harvestPersistTrace true ere today) = [yest, today] := by
  refine ⟨rfl, rfl, ?_, ?_⟩
  · intro e he
    simp [harvestPersistTrace, writeDailyFilesTrace, writeUnitsJsonTrace] at he
    rcases he with h | h | h | h <;> exact ⟨_, h⟩
  · have e1 : [ere, yest].erase ere = [yest] := List.erase_cons_head ..
    simp [runFsTrace, harvestPersistTrace, writeDailyFilesTrace,
      writeUnitsJsonTrace, applyFsEvent, e1, h2]

/-- Witness for C9 at concrete dates. -/
theorem C9_witness :
    (harvestPersistTrace true "2023_10_05" "2023_10_07")[4]? =
      some (FsEvent.deleteSnapshot "2023_10_05") ∧
    (harvestPersistTrace true "2023_10_05" "2023_10_07")[5]? =
      some (FsEvent.writeSnapshot "2023_10_07") ∧
    runFsTrace ["2023_10_05", "2023_10_06"]
      (harvestPersistTrace true "2023_10_05" "2023_10_07") =
      ["2023_10_06", "2023_10_07"] :=
  ⟨(C9_prune_before_persist "2023_10_05" "2023_10_06" "2023_10_07" (by decide)).1,
   (C9_prune_before_persist "2023_10_05" "2023_10_06" "2023_10_07" (by decide)).2.1,
   (C9_prune_before_persist "2023_10_05" "2023_10_06" "2023_10_07" (by decide)).2.2.2⟩

/-- C9 counterexample: the deletion of the two-day-old snapshot sits at
index 4 of the persistence trace and no event before it writes today's
snapshot — the snapshot is pruned before today's snapshot is persisted,
contradicting the claimed never-before ordering. -/
theorem C9_counterexample :
    (harvestPersistTrace true "2023_10_05" "2023_10_07")[4]? =
      some (FsEvent.deleteSnapshot "2023_10_05") ∧
    ∀ e ∈ (harvestPersistTrace true "2023_10_05" "2023_10_07").take 4,
      e ≠ FsEvent.writeSnapshot "2023_10_07" := by
  decide

/-- C10: a per-cell fetch whose request completes with a non-200 status (and
no connection error) only logs the status: it still parses the body,
validates the entities and merges them into the shared set, reporting the
usual added/duplicate stats, so a non-200 cell can contribute entities. -/
theorem C10_bad_status_still_merged (wards : List Unit) (status : Nat)
    (data : List Unit) (h : status ≠ 200) (u : Unit) :
    (getWardsAtCoords wards [ReqOutcome.ok status data]).1 = updateUnits wards data ∧
    (getWardsAtCoords wards [ReqOutcome.ok status data]).2 =
      some (((updateUnits wards data).length : Int) - (wards.length : Int),
        (data.length : Int) -
          (((updateUnits wards data).length : Int) - (wards.length : Int))) ∧
    (memUnit data u = true →
      memUnit (getWardsAtCoords wards [ReqOutcome.ok status data]).1 u = true) := by
  refine ⟨rfl, rfl, ?_⟩
  intro hm
  show memUnit (updateUnits wards data) u = true
  rw [memUnit_updateUnits, hm]
  simp

/-- Witness for C10: a 500 response still contributes its entity to the
shared set. -/
theorem C10_witness :
    (500 : Nat) ≠ 200 ∧
    memUnit (getWardsAtCoords [] [ReqOutcome.ok 500 [wardA]]).1 wardA = true :=
  ⟨by decide,
    (C10_bad_status_still_merged [] 500 [wardA] (by decide) wardA).2.2 (by decide)⟩

end LDS
